import Mathlib

/-!
Verification of the `jwt-claims` crate (src/lib.rs): a structured version of
the JWT Claims Set (RFC 7519 §4) with serde-based wire encoding and pure
validation predicates.

Modelling choices:
* Rust `String` values are byte strings, modelled as `List Nat`;
* `DateTime<Utc>` instants are modelled by their `timestamp()` in seconds
  since the Unix epoch, as `Int` (the code only compares instants and tests
  `timestamp() == 0`, and the wire form is `TimestampSeconds<i64>`);
* `subtle::ConstantTimeEq::ct_eq` on byte slices compares lengths and then
  folds a byte-wise equality mask over the zipped slices; extensionally it
  decides equality, and an instrumented variant below additionally counts
  the byte comparisons performed, for the timing property;
* the wire form is a list of key/value pairs in serialization order, and
  decoding follows the serde derive semantics for the struct (unknown keys
  ignored because `deny_unknown_fields` is absent, missing fields filled
  from `Default` because of `#[serde(default)]`, a repeated recognized key
  is a duplicate-field error).
-/

namespace JwtClaims

/-- Byte strings (Rust `String` / `&[u8]` contents). -/
abbrev Bytes := List Nat

/-- A JSON-like wire value as produced by the serde attributes of the
struct: strings, arrays of strings, and integer timestamps. -/
inductive JValue where
  | jstr : Bytes → JValue
  | jarr : List Bytes → JValue
  | jint : Int → JValue
deriving DecidableEq

/-- The closed error taxonomy of `valid` (enum `ValidationError`). -/
inductive ValidationError where
  | TokenExpired
  | TokenUsedBeforeIssued
  | TokenNotValidYet
deriving DecidableEq

/-- The `RegisteredClaims` struct of src/lib.rs. -/
structure RegisteredClaims where
  issuer : Bytes
  subject : Bytes
  audience : List Bytes
  expires_at : Option Int
  not_before : Option Int
  issued_at : Option Int
  id : Bytes
deriving DecidableEq

/-- The `subtle` crate's `ct_eq` on byte slices: `Choice(0)` when the
lengths differ, otherwise the conjunction of byte-wise equality over the
zipped slices (visiting every position). `unwrap_u8 == 1` turns the
`Choice` into a `Bool`. -/
def ctEq (a b : Bytes) : Bool :=
  if a.length = b.length then (a.zip b).all fun p => p.1 == p.2 else false

/-- Instrumented `ct_eq`: same result, paired with the number of byte
comparisons performed (zero when the length test already fails, one per
zipped position otherwise). -/
def ctEqInstr (a b : Bytes) : Bool × Nat :=
  if a.length = b.length then
    ((a.zip b).all fun p => p.1 == p.2, (a.zip b).length)
  else (false, 0)

/-- The loop of `verify_audience`: for each entry, `result` is or-ed with
the constant-time comparison against `cmp`, and the entry is appended to
`string_claims`. Returns the final `(result, string_claims)`. -/
def audScan (cmp : Bytes) : List Bytes → Bool × Bytes
  | [] => (false, [])
  | a :: rest =>
    let t := audScan cmp rest
    (ctEq a cmp || t.1, a ++ t.2)

/-- `RegisteredClaims::verify_audience`. -/
def verify_audience (c : RegisteredClaims) (cmp : Bytes) (required : Bool) : Bool :=
  if c.audience = [] then !required
  else
    let t := audScan cmp c.audience
    if t.2 = [] then !required else t.1

/-- `RegisteredClaims::verify_expires_at` (`cmp` is the reference time). -/
def verify_expires_at (c : RegisteredClaims) (cmp : Int) (required : Bool) : Bool :=
  match c.expires_at with
  | some exp => if exp = 0 then !required else decide (cmp < exp)
  | none => !required

/-- `RegisteredClaims::verify_issued_at`. -/
def verify_issued_at (c : RegisteredClaims) (cmp : Int) (required : Bool) : Bool :=
  match c.issued_at with
  | some iat => if iat = 0 then !required else decide (cmp ≥ iat)
  | none => !required

/-- `RegisteredClaims::verify_not_before`. -/
def verify_not_before (c : RegisteredClaims) (cmp : Int) (required : Bool) : Bool :=
  match c.not_before with
  | some nbf => if nbf = 0 then !required else decide (cmp ≥ nbf)
  | none => !required

/-- `RegisteredClaims::verify_issuer`. -/
def verify_issuer (c : RegisteredClaims) (cmp : Bytes) (required : Bool) : Bool :=
  if c.issuer = [] then !required else ctEq c.issuer cmp

/-- `RegisteredClaims::valid`. The Rust method reads `Utc::now()` itself;
here the reference time is the explicit argument `now`. -/
def valid (c : RegisteredClaims) (now : Int) : Except ValidationError Unit :=
  if !(verify_expires_at c now false) then Except.error ValidationError.TokenExpired
  else if !(verify_issued_at c now false) then Except.error ValidationError.TokenUsedBeforeIssued
  else if !(verify_not_before c now false) then Except.error ValidationError.TokenNotValidYet
  else Except.ok ()

/-- Serialization of `RegisteredClaims`, field by field in declaration
order, following the serde attributes of the source verbatim: each string
field is skipped when empty, the audience when the vector is empty, each
instant when `None`. The wire keys are the literal `rename` strings of the
source: `iss`, `sub`, `aud`, and then `exp` for `expires_at`, `exp` for
`not_before`, `exp` for `issued_at` (the source renames all three instants
to `"exp"`), and `jti`. -/
def encode (c : RegisteredClaims) : List (String × JValue) :=
  (if c.issuer = [] then [] else [("iss", JValue.jstr c.issuer)]) ++
  (if c.subject = [] then [] else [("sub", JValue.jstr c.subject)]) ++
  (if c.audience = [] then [] else [("aud", JValue.jarr c.audience)]) ++
  (match c.expires_at with | none => [] | some t => [("exp", JValue.jint t)]) ++
  (match c.not_before with | none => [] | some t => [("exp", JValue.jint t)]) ++
  (match c.issued_at with | none => [] | some t => [("exp", JValue.jint t)]) ++
  (if c.id = [] then [] else [("jti", JValue.jstr c.id)])

/-- Deserializer state: one slot per recognized wire key. Because the
source renames `expires_at`, `not_before` and `issued_at` all to `"exp"`,
the generated field matcher sends the key `"exp"` to its first arm, the
`expires_at` slot; the arms for the other two fields are unreachable, so
those fields are always filled from `Default` (i.e. `None`). -/
structure DecState where
  iss : Option Bytes
  sub : Option Bytes
  aud : Option (List Bytes)
  exp : Option (Option Int)
  jti : Option Bytes

/-- The serde map visitor: processes entries in order; a recognized key
whose slot is already filled is a duplicate-field error, a recognized key
with a value of the wrong shape is a type error, an unrecognized key is
ignored. -/
def decodeLoop : List (String × JValue) → DecState → Option DecState
  | [], st => some st
  | (k, v) :: rest, st =>
    if k = "iss" then
      match st.iss, v with
      | none, JValue.jstr s => decodeLoop rest { st with iss := some s }
      | _, _ => none
    else if k = "sub" then
      match st.sub, v with
      | none, JValue.jstr s => decodeLoop rest { st with sub := some s }
      | _, _ => none
    else if k = "aud" then
      match st.aud, v with
      | none, JValue.jarr ss => decodeLoop rest { st with aud := some ss }
      | _, _ => none
    else if k = "exp" then
      match st.exp, v with
      | none, JValue.jint t => decodeLoop rest { st with exp := some (some t) }
      | _, _ => none
    else if k = "jti" then
      match st.jti, v with
      | none, JValue.jstr s => decodeLoop rest { st with jti := some s }
      | _, _ => none
    else decodeLoop rest st

/-- Deserialization of `RegisteredClaims`: run the visitor from the empty
state and fill every unset slot from `Default` (`#[serde(default)]`):
empty strings, empty audience, absent instants. `not_before` and
`issued_at` are never set by the visitor (their match arms are shadowed by
the `expires_at` arm for the shared key `"exp"`). -/
def decode (es : List (String × JValue)) : Option RegisteredClaims :=
  (decodeLoop es ⟨none, none, none, none, none⟩).map fun st =>
    { issuer := st.iss.getD []
      subject := st.sub.getD []
      audience := st.aud.getD []
      expires_at := st.exp.getD none
      not_before := none
      issued_at := none
      id := st.jti.getD [] }

/-- Per-entry trace of the `verify_audience` loop: result, accumulated
concatenation, number of entries visited, total byte comparisons. -/
structure AudTrace where
  result : Bool
  concat : Bytes
  visited : Nat
  byteOps : Nat
deriving DecidableEq

/-- Instrumented `verify_audience` loop: the same scan as `audScan`,
additionally counting one visit per entry and the byte comparisons of each
constant-time equality test. -/
def audLoop (cmp : Bytes) : List Bytes → AudTrace
  | [] => ⟨false, [], 0, 0⟩
  | a :: rest =>
    let e := ctEqInstr a cmp
    let t := audLoop cmp rest
    ⟨e.1 || t.result, a ++ t.concat, t.visited + 1, e.2 + t.byteOps⟩

/-- Instrumented `verify_audience`: result, entries visited, byte
comparisons performed. -/
def verify_audienceInstr (c : RegisteredClaims) (cmp : Bytes) (required : Bool) :
    Bool × Nat × Nat :=
  if c.audience = [] then (!required, 0, 0)
  else
    let t := audLoop cmp c.audience
    if t.concat = [] then (!required, t.visited, t.byteOps)
    else (t.result, t.visited, t.byteOps)

/-- Instrumented `verify_issuer`: result paired with the byte comparisons
performed. -/
def verify_issuerInstr (c : RegisteredClaims) (cmp : Bytes) (required : Bool) :
    Bool × Nat :=
  if c.issuer = [] then (!required, 0) else ctEqInstr c.issuer cmp

/-- On byte strings of equal length, the byte-wise mask fold of ct_eq
decides equality. -/
theorem zipAll_eq_iff (a b : Bytes) (h : a.length = b.length) :
    ((a.zip b).all fun p => p.1 == p.2) = true ↔ a = b := by
  induction a generalizing b with
  | nil =>
    cases b with
    | nil => simp
    | cons y ys => simp at h
  | cons x xs ih =>
    cases b with
    | nil => simp at h
    | cons y ys =>
      simp only [List.length_cons, Nat.add_right_cancel_iff] at h
      simp [List.zip_cons_cons, List.all_cons, ih ys h, beq_iff_eq]

/-- ct_eq decides byte-string equality. -/
theorem ctEq_iff (a b : Bytes) : ctEq a b = true ↔ a = b := by
  by_cases h : a.length = b.length
  · simp only [ctEq, if_pos h]
    exact zipAll_eq_iff a b h
  · have hne : a ≠ b := fun he => h (he ▸ rfl)
    simp [ctEq, h, hne]

/-- The instrumented ct_eq returns the same result as ct_eq. -/
theorem ctEqInstr_fst (a b : Bytes) : (ctEqInstr a b).1 = ctEq a b := by
  unfold ctEqInstr ctEq
  split <;> rfl

/-- The byte-comparison count of ct_eq is a function of the lengths alone:
zero when they differ, the common length otherwise. -/
theorem ctEqInstr_snd (a b : Bytes) :
    (ctEqInstr a b).2 = if a.length = b.length then a.length else 0 := by
  by_cases h : a.length = b.length <;>
    simp [ctEqInstr, h, List.length_zip, min_self]

/-- The verify_audience scan computes the disjunction of the per-entry
ct_eq results and the concatenation of all entries. -/
theorem audScan_eq (cmp : Bytes) (l : List Bytes) :
    audScan cmp l = (l.any fun a => ctEq a cmp, l.flatten) := by
  induction l with
  | nil => rfl
  | cons a rest ih => simp [audScan, ih, List.any_cons, List.flatten]

/-- The instrumented audience loop: result and concatenation as in the
plain scan, exactly one visit per entry, and byte comparisons summed over
all entries. -/
theorem audLoop_spec (cmp : Bytes) (l : List Bytes) :
    audLoop cmp l =
      ⟨l.any fun a => ctEq a cmp, l.flatten, l.length,
        (l.map fun a => (ctEqInstr a cmp).2).sum⟩ := by
  induction l with
  | nil => rfl
  | cons a rest ih =>
    simp [audLoop, ih, ctEqInstr_fst, List.any_cons, List.flatten, Nat.add_comm]

/-- The byte-comparison count of the audience loop is determined by the
entry-length profile of the audience and the length of the compared
string. -/
theorem audLoop_byteOps_profile (cmp : Bytes) (l : List Bytes) :
    (audLoop cmp l).byteOps =
      ((l.map List.length).map fun n => if n = cmp.length then n else 0).sum := by
  rw [audLoop_spec]
  simp [List.map_map, Function.comp_def, ctEqInstr_snd]

/-- The instrumented verify_issuer returns the same result as
verify_issuer. -/
theorem verify_issuerInstr_fst (c : RegisteredClaims) (cmp : Bytes) (required : Bool) :
    (verify_issuerInstr c cmp required).1 = verify_issuer c cmp required := by
  by_cases h : c.issuer = [] <;>
    simp [verify_issuerInstr, verify_issuer, h, ctEqInstr_fst]

/-- The byte-comparison count of verify_issuer is a function of the issuer
length and the compared length alone. -/
theorem verify_issuerInstr_snd (c : RegisteredClaims) (cmp : Bytes) (required : Bool) :
    (verify_issuerInstr c cmp required).2 =
      if c.issuer.length = cmp.length then c.issuer.length else 0 := by
  by_cases h : c.issuer = []
  · simp [verify_issuerInstr, h]
  · simp [verify_issuerInstr, h, ctEqInstr_snd]

/-- The instrumented verify_audience returns the same result as
verify_audience. -/
theorem verify_audienceInstr_fst (c : RegisteredClaims) (cmp : Bytes) (required : Bool) :
    (verify_audienceInstr c cmp required).1 = verify_audience c cmp required := by
  by_cases h : c.audience = []
  · simp [verify_audienceInstr, verify_audience, h]
  · by_cases hj : c.audience.flatten = [] <;>
      simp [verify_audienceInstr, verify_audience, h, hj, audLoop_spec, audScan_eq]

/-- verify_audience visits every audience entry: the visit count equals the
audience length, whatever the entries and the compared string are. -/
theorem verify_audienceInstr_visited (c : RegisteredClaims) (cmp : Bytes) (required : Bool) :
    (verify_audienceInstr c cmp required).2.1 = c.audience.length := by
  by_cases h : c.audience = []
  · simp [verify_audienceInstr, h]
  · by_cases hj : c.audience.flatten = [] <;>
      simp [verify_audienceInstr, h, hj, audLoop_spec]

/-- The byte-comparison count of verify_audience is determined by the
entry-length profile and the compared length alone. -/
theorem verify_audienceInstr_byteOps (c : RegisteredClaims) (cmp : Bytes) (required : Bool) :
    (verify_audienceInstr c cmp required).2.2 =
      ((c.audience.map List.length).map fun n => if n = cmp.length then n else 0).sum := by
  by_cases h : c.audience = []
  · simp [verify_audienceInstr, h]
  · by_cases hj : c.audience.flatten = [] <;>
      simp [verify_audienceInstr, h, hj, audLoop_spec, List.map_map,
        Function.comp_def, ctEqInstr_snd]

/-- Claim C1: the claim asserts that each instant field is encoded under
its own wire key (expires_at under exp, not_before under nbf, issued_at
under iat). The code instead renames all three instant fields to the wire
key exp, so the record of the crate's own test serializes with the key
sequence iss, sub, aud, exp, exp, exp, jti — not_before and issued_at
appear under exp and the keys nbf and iat never occur. -/
theorem claim1_instant_keys_collapsed :
    (encode ⟨[105, 115, 115, 117, 101, 114], [115, 117, 98, 106, 101, 99, 116],
        [[97, 117, 100, 49], [97, 117, 100, 50]], some 1696118400, some 1633046400,
        some 1633046400, [106, 116, 105]⟩).map Prod.fst =
      ["iss", "sub", "aud", "exp", "exp", "exp", "jti"] := by
  rfl

/-- Claim C2: the claim asserts decode(encode(x)) = x for records matching
the omission policy. On the spec's own round-trip example (issuer i,
subject s, audience a1/a2, id jti, three non-zero instants) the encoder
emits three entries under the shared key exp, so the decoder rejects the
document with a duplicate-field error instead of returning the record. -/
theorem claim2_roundtrip_fails_on_spec_example :
    decode (encode ⟨[105], [115], [[97, 49], [97, 50]], some 1696118400,
      some 1633046400, some 1633046400, [106, 116, 105]⟩) = none := by
  rfl

/-- Claim C3: the aggregate validity check evaluates the expiry check, the
issued-at check and the not-before check in that order, each with
required = false, short-circuiting at the first failure with its distinct
error kind, and succeeds exactly when all three pass. -/
theorem claim3_valid_order_and_errors (c : RegisteredClaims) (now : Int) :
    (valid c now = Except.ok () ↔
      (verify_expires_at c now false = true ∧ verify_issued_at c now false = true ∧
        verify_not_before c now false = true)) ∧
    (valid c now = Except.error ValidationError.TokenExpired ↔
      verify_expires_at c now false = false) ∧
    (valid c now = Except.error ValidationError.TokenUsedBeforeIssued ↔
      (verify_expires_at c now false = true ∧ verify_issued_at c now false = false)) ∧
    (valid c now = Except.error ValidationError.TokenNotValidYet ↔
      (verify_expires_at c now false = true ∧ verify_issued_at c now false = true ∧
        verify_not_before c now false = false)) := by
  cases hexp : verify_expires_at c now false <;>
    cases hiat : verify_issued_at c now false <;>
      cases hnbf : verify_not_before c now false <;>
        simp [valid, hexp, hiat, hnbf]

/-- Witness for C3: a record valid at the reference time 70. -/
theorem claim3_valid_order_and_errors_witness :
    valid ⟨[], [], [], some 100, some 50, some 60, []⟩ 70 = Except.ok () :=
  (claim3_valid_order_and_errors ⟨[], [], [], some 100, some 50, some 60, []⟩ 70).1.mpr
    ⟨by decide, by decide, by decide⟩

/-- Claim C4: verify_expires_at returns the negation of required when no
expiry is set or when the expiry is present with timestamp epoch-zero, and
otherwise returns true exactly when the reference time is strictly before
the expiry instant. -/
theorem claim4_verify_expires_at_cases (c : RegisteredClaims) (now : Int) (required : Bool) :
    (c.expires_at = none → verify_expires_at c now required = !required) ∧
    (c.expires_at = some 0 → verify_expires_at c now required = !required) ∧
    (∀ e, c.expires_at = some e → e ≠ 0 →
      (verify_expires_at c now required = true ↔ now < e)) :=
  ⟨fun h => by simp [verify_expires_at, h], fun h => by simp [verify_expires_at, h],
    fun e h he => by simp [verify_expires_at, h, he]⟩

/-- Witness for C4: a non-zero expiry at 10 with reference time 5 passes. -/
theorem claim4_verify_expires_at_cases_witness :
    verify_expires_at ⟨[], [], [], some 10, none, none, []⟩ 5 true = true :=
  ((claim4_verify_expires_at_cases ⟨[], [], [], some 10, none, none, []⟩ 5 true).2.2 10 rfl
    (by decide)).mpr (by decide)

/-- Counterexample for C5: the claim asserts that an epoch-zero expiry
passes the expiry check for every value of the required flag, but with
required = true the check returns false. -/
theorem claim5_epoch_zero_required_fails :
    verify_expires_at ⟨[], [], [], some 0, none, none, []⟩ 5 true = false := by
  decide

/-- Claim C5 (amended): a record whose expires_at is present with
timestamp exactly epoch-zero passes verify_expires_at for every reference
time when required is false. -/
theorem claim5_epoch_zero_passes_when_not_required (c : RegisteredClaims) (now : Int)
    (h : c.expires_at = some 0) : verify_expires_at c now false = true := by
  simp [verify_expires_at, h]

/-- Witness for the amended C5: an epoch-zero expiry passes at time 5. -/
theorem claim5_epoch_zero_passes_when_not_required_witness :
    verify_expires_at ⟨[], [], [], some 0, none, none, []⟩ 5 false = true :=
  claim5_epoch_zero_passes_when_not_required ⟨[], [], [], some 0, none, none, []⟩ 5 rfl

/-- Claim C6: verify_audience returns the negation of required on an empty
audience; on a non-empty audience whose concatenation is non-empty it
returns true exactly when some entry equals the expected string; and on a
non-empty audience whose concatenation is empty it returns the negation of
required. -/
theorem claim6_verify_audience_cases (c : RegisteredClaims) (cmp : Bytes) (required : Bool) :
    (c.audience = [] → verify_audience c cmp required = !required) ∧
    (c.audience ≠ [] → c.audience.flatten ≠ [] →
      (verify_audience c cmp required = true ↔ ∃ a ∈ c.audience, a = cmp)) ∧
    (c.audience ≠ [] → c.audience.flatten = [] →
      verify_audience c cmp required = !required) :=
  ⟨fun h => by simp [verify_audience, h],
    fun h1 h2 => by
      simp [verify_audience, h1, audScan_eq, h2, List.any_eq_true, ctEq_iff],
    fun h1 h2 => by simp [verify_audience, h1, audScan_eq, h2]⟩

/-- Witness for C6: the spec's example, audience a, x, b matched against x
with required = true. -/
theorem claim6_verify_audience_cases_witness :
    verify_audience ⟨[], [], [[97], [120], [98]], none, none, none, []⟩ [120] true = true :=
  ((claim6_verify_audience_cases ⟨[], [], [[97], [120], [98]], none, none, none, []⟩
      [120] true).2.1 (by decide) (by decide)).mpr ⟨[120], by decide, rfl⟩

/-- Claim C7: verify_not_before returns the negation of required when no
not-before is set or when it is present with timestamp epoch-zero, and
otherwise returns true exactly when the reference time is at or after the
not-before instant. -/
theorem claim7_verify_not_before_cases (c : RegisteredClaims) (now : Int) (required : Bool) :
    (c.not_before = none → verify_not_before c now required = !required) ∧
    (c.not_before = some 0 → verify_not_before c now required = !required) ∧
    (∀ n, c.not_before = some n → n ≠ 0 →
      (verify_not_before c now required = true ↔ now ≥ n)) :=
  ⟨fun h => by simp [verify_not_before, h], fun h => by simp [verify_not_before, h],
    fun n h hn => by simp [verify_not_before, h, hn]⟩

/-- Witness for C7: a non-zero not-before at 10 with reference time 15
passes. -/
theorem claim7_verify_not_before_cases_witness :
    verify_not_before ⟨[], [], [], none, some 10, none, []⟩ 15 true = true :=
  ((claim7_verify_not_before_cases ⟨[], [], [], none, some 10, none, []⟩ 15 true).2.2 10 rfl
    (by decide)).mpr (by decide)

/-- Claim C8: the issuer and audience comparisons are constant-time in the
modelled cost semantics. The instrumented variants agree with the plain
predicates on the result; the audience loop visits every entry (the visit
count equals the audience length regardless of contents); and the
byte-comparison counts of both predicates depend only on the lengths of
the compared strings (the issuer length and the audience entry-length
profile), never on where or whether the contents differ. -/
theorem claim8_constant_time (c c' : RegisteredClaims) (cmp cmp' : Bytes) (required : Bool) :
    ((verify_issuerInstr c cmp required).1 = verify_issuer c cmp required) ∧
    ((verify_audienceInstr c cmp required).1 = verify_audience c cmp required) ∧
    ((verify_audienceInstr c cmp required).2.1 = c.audience.length) ∧
    (c.issuer.length = c'.issuer.length → cmp.length = cmp'.length →
      (verify_issuerInstr c cmp required).2 = (verify_issuerInstr c' cmp' required).2) ∧
    (c.audience.map List.length = c'.audience.map List.length → cmp.length = cmp'.length →
      (verify_audienceInstr c cmp required).2.2 =
        (verify_audienceInstr c' cmp' required).2.2) := by
  refine ⟨verify_issuerInstr_fst c cmp required, verify_audienceInstr_fst c cmp required,
    verify_audienceInstr_visited c cmp required, fun h1 h2 => ?_, fun h1 h2 => ?_⟩
  · rw [verify_issuerInstr_snd, verify_issuerInstr_snd, h1, h2]
  · rw [verify_audienceInstr_byteOps, verify_audienceInstr_byteOps, h1, h2]

/-- Witness for C8: two records with equal length profiles but different
contents incur identical comparison costs. -/
theorem claim8_constant_time_witness :
    (verify_issuerInstr ⟨[1, 2], [], [], none, none, none, []⟩ [2, 3] true).2 =
        (verify_issuerInstr ⟨[9, 9], [], [], none, none, none, []⟩ [5, 5] true).2 ∧
      (verify_audienceInstr ⟨[], [], [[1], [2, 3]], none, none, none, []⟩ [2, 3] true).2.2 =
        (verify_audienceInstr ⟨[], [], [[7], [0, 0]], none, none, none, []⟩ [5, 5] true).2.2 :=
  ⟨(claim8_constant_time ⟨[1, 2], [], [], none, none, none, []⟩
      ⟨[9, 9], [], [], none, none, none, []⟩ [2, 3] [5, 5] true).2.2.2.1 (by decide)
      (by decide),
    (claim8_constant_time ⟨[], [], [[1], [2, 3]], none, none, none, []⟩
      ⟨[], [], [[7], [0, 0]], none, none, none, []⟩ [2, 3] [5, 5] true).2.2.2.2 (by decide)
      (by decide)⟩

/-- Claim C9: when the relevant instant field is present with timestamp
exactly epoch-zero and required is true, each of the three temporal
predicates returns false regardless of the reference time. -/
theorem claim9_epoch_zero_required_rejects (c : RegisteredClaims) (now : Int) :
    (c.expires_at = some 0 → verify_expires_at c now true = false) ∧
    (c.issued_at = some 0 → verify_issued_at c now true = false) ∧
    (c.not_before = some 0 → verify_not_before c now true = false) :=
  ⟨fun h => by simp [verify_expires_at, h], fun h => by simp [verify_issued_at, h],
    fun h => by simp [verify_not_before, h]⟩

/-- Witness for C9: a record with all three instants at epoch-zero fails
all three required checks at time 5. -/
theorem claim9_epoch_zero_required_rejects_witness :
    verify_expires_at ⟨[], [], [], some 0, some 0, some 0, []⟩ 5 true = false ∧
      verify_issued_at ⟨[], [], [], some 0, some 0, some 0, []⟩ 5 true = false ∧
      verify_not_before ⟨[], [], [], some 0, some 0, some 0, []⟩ 5 true = false :=
  ⟨(claim9_epoch_zero_required_rejects ⟨[], [], [], some 0, some 0, some 0, []⟩ 5).1 rfl,
    (claim9_epoch_zero_required_rejects ⟨[], [], [], some 0, some 0, some 0, []⟩ 5).2.1 rfl,
    (claim9_epoch_zero_required_rejects ⟨[], [], [], some 0, some 0, some 0, []⟩ 5).2.2 rfl⟩

/-- Claim C10: on a non-empty audience consisting only of empty strings,
verify_audience with the empty expected string and required = true returns
false, although the empty expected string does equal an audience entry:
the empty-concatenation outcome overrides the successful match. -/
theorem claim10_empty_entries_override_match (c : RegisteredClaims)
    (h1 : c.audience ≠ []) (h2 : ∀ a ∈ c.audience, a = []) :
    (∃ a ∈ c.audience, a = ([] : Bytes)) ∧ verify_audience c [] true = false := by
  have hj : c.audience.flatten = [] := List.flatten_eq_nil_iff.mpr h2
  constructor
  · obtain ⟨a, ha⟩ := List.exists_mem_of_ne_nil c.audience h1
    exact ⟨a, ha, h2 a ha⟩
  · simp [verify_audience, h1, audScan_eq, hj]

/-- Witness for C10: the audience consisting of one empty string. -/
theorem claim10_empty_entries_override_match_witness :
    verify_audience ⟨[], [], [[]], none, none, none, []⟩ [] true = false :=
  (claim10_empty_entries_override_match ⟨[], [], [[]], none, none, none, []⟩ (by decide)
    (by decide)).2

end JwtClaims
